import Mathlib

/-!
Verification of the sunkit-spex spectral-data core: the greedy count-threshold
binning engine (`LoadSpec.group_cts`, `LoadSpec.group_pha_finder`), the
per-spectrum rebin/undo state management (`LoadSpec._rebin_loaded_spec`,
`LoadSpec.undo_rebin`, `LoadSpec._rebin_check`), collection merging
(`LoadSpec.__add__`) and the validated spectrum container
(`SpectrumData.__init__` / `SpectrumData._check_valid_args`).

Modelling conventions:
* Channel bin edges and counts are embedded as `Int`.  The Python code holds
  them in float arrays, but every operation the binning engine performs on
  them (comparison with the integer threshold, summation, subtraction of
  edges) is exact on integer-valued floats, and all fixtures in the
  specification are integral.
* Derived floating-point quantities (bin midpoints, count rates, count-rate
  errors) are embedded as the expression trees (`FVal`) that produce them:
  the code never branches on these values, it only stores, archives and
  restores them, so two equal expression trees model bit-identical floats
  computed by the same formula from the same inputs.
* Fallible code (a Python `IndexError` / `KeyError`) is embedded as
  `Except String`.
* Printed diagnostics are embedded as an explicit list of messages in the
  return value.
-/

deriving instance DecidableEq for Except

/-- Floating-point values of derived quantities, kept as the expression
trees that produce them (see module docstring). -/
inductive FVal
  | int (n : Int)
  | add (a b : FVal)
  | div (a b : FVal)
  | sqrt (a : FVal)
deriving DecidableEq

/-- A channel bin `[low, high)`: one row of the N x 2 `channel_bins` array. -/
abbrev Bin := Int × Int

abbrev Bins := List Bin

/-- The argument passed for Python parameter `group_min`: `None`, an `int`,
or a value of any other type (which `type(group_min)!=int` rejects). -/
inductive GroupMin
  | none
  | int (n : Int)
  | other
deriving DecidableEq

/-- Diagnostic printed by `group_cts`/`group_pha_finder` for an invalid
`group_min` argument. -/
def groupMinMsg : String := "The group_min parameter must be an integer greater than 0."

/-- Diagnostic printed by `group_cts` when counts are left over from binning. -/
def leftoverMsg : String := "counts are left over from binning and will not be included when fitting or shown when plotted."

/-- Loop state of the `for c, count in enumerate(counts)` loop in
`LoadSpec.group_cts` (data_loader.py lines 563-580): the accumulated output
lists, the running total `combin`, the flag `reset_bin_counter` and the
pending left edge `start_e_bin` (0 before first assignment; the Python
variable is only read after it has been assigned). -/
structure GCState where
  binned_channel : Bins
  binned_counts : List Int
  combin : Int
  reset_bin_counter : Bool
  start_e_bin : Int
deriving DecidableEq

/-- One iteration of the accumulation loop of `LoadSpec.group_cts`
(data_loader.py lines 567-580). -/
def gcStep (group_min : Int) (st : GCState) (cb : Bin × Int) : GCState :=
  let chan := cb.1
  let count := cb.2
  if count ≥ group_min ∧ st.combin = 0 ∧ st.reset_bin_counter = true then
    { st with binned_channel := st.binned_channel ++ [chan],
              binned_counts := st.binned_counts ++ [count] }
  else
    let start_e_bin := if st.reset_bin_counter then chan.1 else st.start_e_bin
    let combin := st.combin + count
    if combin ≥ group_min then
      { binned_channel := st.binned_channel ++ [(start_e_bin, chan.2)],
        binned_counts := st.binned_counts ++ [combin],
        combin := 0,
        reset_bin_counter := true,
        start_e_bin := start_e_bin }
    else
      { st with combin := combin,
                reset_bin_counter := false,
                start_e_bin := start_e_bin }

/-- Embedding of `LoadSpec.group_cts` (data_loader.py lines 530-592).
Returns the new bins, the grouped counts, and the printed diagnostics.
The expression `np.array(binned_channel)[-1,-1]` raises an `IndexError`
when `binned_channel` is empty; that is the `Except.error` case. -/
def group_cts (channel_bins : Bins) (counts : List Int) (group_min : GroupMin) :
    Except String (Bins × List Int × List String) :=
  match group_min with
  | .none => .ok (channel_bins, counts, [])
  | .other => .ok (channel_bins, counts, [groupMinMsg])
  | .int n =>
    if n ≤ 0 then .ok (channel_bins, counts, [groupMinMsg])
    else
      let st := (List.zip channel_bins counts).foldl (gcStep n)
        { binned_channel := [], binned_counts := [], combin := 0,
          reset_bin_counter := true, start_e_bin := 0 }
      match st.binned_channel.getLast? with
      | Option.none => .error "IndexError"
      | Option.some lastBin =>
        let remainder_bins := channel_bins.filter (fun b => lastBin.2 < b.2)
        let out_counts := st.binned_counts ++ List.replicate remainder_bins.length 0
        let msgs := if 0 < st.combin then [leftoverMsg] else []
        .ok (st.binned_channel ++ remainder_bins, out_counts, msgs)

/-- Result of `LoadSpec.group_pha_finder`: the Python method returns `None`
(for an invalid argument or when the candidate reaches the total count sum)
or the pair of the binned channels and the working group minimum. -/
inductive PhaResult
  | noResult
  | found (bins : Bins) (group_min : Int)
deriving DecidableEq

/-- Loop state of the `for c, count in enumerate(counts)` loop in
`LoadSpec.group_pha_finder` (data_loader.py lines 472-481); unlike
`group_cts` there is no `reset_bin_counter` flag. -/
structure PFState where
  binned_channel : Bins
  combin : Int
  start_e_bin : Int
deriving DecidableEq

/-- One iteration of the accumulation loop of `LoadSpec.group_pha_finder`
(data_loader.py lines 472-481). -/
def pfStep (group_min : Int) (st : PFState) (cb : Bin × Int) : PFState :=
  let chan := cb.1
  let count := cb.2
  if count ≥ group_min ∧ st.combin = 0 then
    { st with binned_channel := st.binned_channel ++ [chan] }
  else
    let start_e_bin := if st.combin = 0 then chan.1 else st.start_e_bin
    let combin := st.combin + count
    if combin ≥ group_min then
      { binned_channel := st.binned_channel ++ [(start_e_bin, chan.2)],
        combin := 0,
        start_e_bin := start_e_bin }
    else
      { st with combin := combin, start_e_bin := start_e_bin }

/-- The `while True` loop of `LoadSpec.group_pha_finder` (data_loader.py
lines 468-493), with explicit fuel; `Option.none` means the fuel ran out
(the Python loop runs unboundedly). -/
def phaLoop (channels : Bins) (counts : List Int) (total_counts : Int) :
    Nat → Int → Option PhaResult
  | 0, _ => Option.none
  | fuel + 1, group_min =>
    let st := (List.zip channels counts).foldl (pfStep group_min)
      { binned_channel := [], combin := 0, start_e_bin := 0 }
    if st.combin ≠ 0 then
      phaLoop channels counts total_counts fuel (group_min + 1)
    else if group_min = total_counts then
      Option.some PhaResult.noResult
    else
      Option.some (PhaResult.found st.binned_channel group_min)

/-- Embedding of `LoadSpec.group_pha_finder` (data_loader.py lines 437-493). -/
def group_pha_finder (channels : Bins) (counts : List Int) (group_min : GroupMin)
    (fuel : Nat) : Option PhaResult :=
  match group_min with
  | .int n =>
    if n ≤ 0 then Option.some PhaResult.noResult
    else phaLoop channels counts (counts.foldl (fun a b => a + b) 0) fuel n
  | _ => Option.some PhaResult.noResult

/-! ## SpectrumData (instruments/spectrum_data.py) -/

/-- The `effective_exposure` argument of `SpectrumData`: a single value or a
1D array. -/
inductive Exposure
  | scalar (x : Int)
  | array (xs : List Int)
deriving DecidableEq

/-- `numpy` `.size` of the exposure value. -/
def Exposure.size : Exposure → Nat
  | .scalar _ => 1
  | .array xs => xs.length

/-- A 2D `numpy` array as the validation code sees it: its `.shape` and its
entries (the entries are stored but never inspected by validation). -/
structure PyMatrix where
  rows : Nat
  cols : Nat
  data : List (List Int)
deriving DecidableEq

/-- `SpectrumData.SAMPLE_OPTIONS` (spectrum_data.py line 88). -/
def SAMPLE_OPTIONS : List String := ["Gaussian", "Poissonian"]

/-- `np.diff` of a 1D array of edges. -/
def npDiff (xs : List Int) : List Int := (List.zip xs.tail xs).map (fun p => p.1 - p.2)

/-- The fields of a constructed `SpectrumData` instance
(spectrum_data.py lines 136-151). -/
structure SpectrumData where
  counts : List Int
  counts_error : List Int
  counts_energy_edges : List Int
  photons_energy_edges : List Int
  spectral_response_matrix : PyMatrix
  effective_exposure : Exposure
  sample_distribution : String
  counts_energy_widths : List Int
  photons_energy_widths : List Int
deriving DecidableEq

/-- Embedding of `SpectrumData.__init__` together with
`SpectrumData._check_valid_args` (spectrum_data.py lines 91-182).  The
dimensionality checks (`_check_valid_args` lines 158-165) hold by the types
of the embedded arguments; the remaining checks are performed in source
order, and a raised `ValueError` is the `Except.error` case, so no
constructed record reaches the caller on failure.  The `.size - 1`
arithmetic is on Python ints, hence `Int` subtraction here. -/
def mkSpectrumData (counts counts_error counts_energy_edges photons_energy_edges : List Int)
    (srm : PyMatrix) (effective_exposure : Exposure) (sample_distribution : String) :
    Except String SpectrumData :=
  if sample_distribution ∉ SAMPLE_OPTIONS then
    .error "The sample_distribution should be from SAMPLE_OPTIONS."
  else if ¬ ((effective_exposure.size = counts.length ∨ effective_exposure.size = 1)
      ∧ counts.length = counts_error.length
      ∧ (counts.length : Int) = (counts_energy_edges.length : Int) - 1) then
    .error "At least one counts related array is inconsistent with the others."
  else if ¬ (((srm.rows : Int), (srm.cols : Int))
      = ((photons_energy_edges.length : Int) - 1, (counts_energy_edges.length : Int) - 1)) then
    .error "The spectral response matrix shape is not consistent with the count and photon bins."
  else
    .ok { counts := counts,
          counts_error := counts_error,
          counts_energy_edges := counts_energy_edges,
          photons_energy_edges := photons_energy_edges,
          spectral_response_matrix := srm,
          effective_exposure := effective_exposure,
          sample_distribution := sample_distribution,
          counts_energy_widths := npDiff counts_energy_edges,
          photons_energy_widths := npDiff photons_energy_edges }

/-- Whether an `Except` value is a normal return (no exception raised). -/
def exceptOk {ε α : Type} : Except ε α → Bool
  | .ok _ => true
  | .error _ => false

/-! ## Per-spectrum working record and rebin/undo state management
(sunxspex_fitting/data_loader.py) -/

/-- The spectral response matrix payload. -/
abbrev Srm := List (List Int)

/-- The `original_<field>` keys of the `extras` sub-record of one loaded
spectrum: each is an independent dictionary key in Python, hence an
independent `Option` here.  `None` means the key is absent. -/
structure Extras where
  original_count_channel_bins : Option Bins := Option.none
  original_count_channel_mids : Option (List FVal) := Option.none
  original_count_channel_binning : Option (List Int) := Option.none
  original_counts : Option (List Int) := Option.none
  original_count_rate : Option (List FVal) := Option.none
  original_count_rate_error : Option (List FVal) := Option.none
  original_photon_channel_bins : Option Bins := Option.none
  original_srm : Option Srm := Option.none
deriving DecidableEq

/-- The `extras` record with no `original_<field>` keys. -/
def Extras.empty : Extras := {}

/-- One entry of `loaded_spec_data` — the mutable working record of a
loaded spectrum, with the fields that `_rebin_loaded_spec` and the
`undo_rebin` getter read and write. -/
structure SpecEntry where
  count_channel_bins : Bins
  count_channel_mids : List FVal
  count_channel_binning : List Int
  counts : List Int
  count_rate : List FVal
  count_rate_error : List FVal
  photon_channel_bins : Bins
  srm : Srm
  effective_exposure : Int
  extras : Extras
deriving DecidableEq

/-- `np.diff(new_bins).flatten()` for an N x 2 interval list. -/
def binWidths (bs : Bins) : List Int := bs.map (fun b => b.2 - b.1)

/-- `np.mean(new_bins, axis=1)` for an N x 2 interval list: `(low+high)/2`
as a float expression. -/
def binMids (bs : Bins) : List FVal :=
  bs.map (fun b => FVal.div (FVal.add (FVal.int b.1) (FVal.int b.2)) (FVal.int 2))

/-- `(new_counts / new_binning) / effective_exposure`
(data_loader.py line 379), elementwise as float expressions. -/
def countRate (nc : List Int) (nw : List Int) (exposure : Int) : List FVal :=
  List.zipWith (fun c w => FVal.div (FVal.div (FVal.int c) (FVal.int w)) (FVal.int exposure)) nc nw

/-- `(np.sqrt(new_counts) / new_binning) / effective_exposure`
(data_loader.py line 380), elementwise as float expressions. -/
def countRateError (nc : List Int) (nw : List Int) (exposure : Int) : List FVal :=
  List.zipWith (fun c w => FVal.div (FVal.div (FVal.sqrt (FVal.int c)) (FVal.int w)) (FVal.int exposure)) nc nw

/-- Embedding of `LoadSpec._rebin_check` (data_loader.py lines 262-275):
a spectrum counts as rebinned exactly when `"original_srm"` is present in
its `extras`. -/
def rebin_check (e : SpecEntry) : Bool := e.extras.original_srm.isSome

/-- The snapshot loop of `LoadSpec._rebin_loaded_spec` (data_loader.py
lines 406-411): every working field except `effective_exposure` and
`extras` is archived under its `original_<field>` key. -/
def snapshot_extras (e : SpecEntry) : Extras :=
  { original_count_channel_bins := Option.some e.count_channel_bins,
    original_count_channel_mids := Option.some e.count_channel_mids,
    original_count_channel_binning := Option.some e.count_channel_binning,
    original_counts := Option.some e.counts,
    original_count_rate := Option.some e.count_rate,
    original_count_rate_error := Option.some e.count_rate_error,
    original_photon_channel_bins := Option.some e.photon_channel_bins,
    original_srm := Option.some e.srm }

/-- The overwrite of the working fields for `axis="count"`
(data_loader.py lines 414-424 and 433): new bins, midpoints, widths,
counts, count rate and count-rate error; the photon-axis fields and
`effective_exposure` are untouched. -/
def overwrite_working (e : SpecEntry) (nb : Bins) (nc : List Int) (ex : Extras) (s : Srm) :
    SpecEntry :=
  { count_channel_bins := nb,
    count_channel_mids := binMids nb,
    count_channel_binning := binWidths nb,
    counts := nc,
    count_rate := countRate nc (binWidths nb) e.effective_exposure,
    count_rate_error := countRateError nc (binWidths nb) e.effective_exposure,
    photon_channel_bins := e.photon_channel_bins,
    srm := s,
    effective_exposure := e.effective_exposure,
    extras := ex }

/-- Embedding of `LoadSpec._rebin_loaded_spec` for one spectrum with
`axis="count"` (data_loader.py lines 384-434), combined with
`LoadSpec.group_spec` (lines 496-528) which selects the archived original
counts and bins when `"original_srm"` is in `extras` (`_rebin_check`) and
raises `KeyError` on a missing archived key.

`rS` is the response-matrix reprojection hook.  Modelled from the spec: the
entry method `_rebin_srm` lives in `sunxspex_fitting/instruments.py`, which
is not part of the sources here; section 4.3 step 5 treats it as an
external capability of the record and the section 4.3 state machine states
that rebinning re-derives from the original snapshot, so it is embedded as
an arbitrary deterministic function of the original response matrix, the
original count channel bins and the new count channel bins.

`rebin_inputs` is the input-selection part: `LoadSpec.group_spec`
(data_loader.py lines 524-525) reads the archived original counts and bins
when `"original_srm"` is in `extras` (`_rebin_check`), raising `KeyError`
on a missing archived key, and the working counts and bins otherwise; the
`extras` component is the archive the overwrite will store (the existing
one when already rebinned — no fresh snapshot is taken — and a full
snapshot of the working fields otherwise, lines 406-411). -/
def rebin_inputs (e : SpecEntry) : Except String (Srm × Bins × List Int × Extras) :=
  match e.extras.original_srm with
  | Option.some origSrm =>
    match e.extras.original_counts, e.extras.original_count_channel_bins with
    | Option.some cs0, Option.some bins0 => .ok (origSrm, bins0, cs0, e.extras)
    | _, _ => .error "KeyError"
  | Option.none => .ok (e.srm, e.count_channel_bins, e.counts, snapshot_extras e)

/-- The per-spectrum body of `LoadSpec._rebin_loaded_spec` with
`axis="count"`: select the grouping inputs (`rebin_inputs`), group
(`group_cts`), then archive and overwrite the working fields and store the
reprojected response matrix. -/
def rebin_loaded_spec (rS : Srm → Bins → Bins → Srm) (gm : GroupMin) (e : SpecEntry) :
    Except String SpecEntry :=
  match rebin_inputs e with
  | .error s => .error s
  | .ok (origSrm, bins0, cs0, ex) =>
    match group_cts bins0 cs0 gm with
    | .error s => .error s
    | .ok (nb, nc, _) => .ok (overwrite_working e nb nc ex (rS origSrm bins0 nb))

/-- Embedding of the per-spectrum body of the `undo_rebin` property getter
(data_loader.py lines 297-308): when the spectrum is rebinned
(`_rebin_check`), every `original_<field>` value is moved back onto the
working field and deleted from `extras` (a missing key would raise
`KeyError`); otherwise the entry is untouched and a diagnostic is printed. -/
def undo_rebin_spec (e : SpecEntry) : Except String SpecEntry :=
  match e.extras.original_srm with
  | Option.none => .ok e
  | Option.some s =>
    match e.extras.original_count_channel_bins, e.extras.original_count_channel_mids,
        e.extras.original_count_channel_binning, e.extras.original_counts,
        e.extras.original_count_rate, e.extras.original_count_rate_error,
        e.extras.original_photon_channel_bins with
    | Option.some b, Option.some mi, Option.some bw, Option.some c, Option.some r,
        Option.some rerr, Option.some pb =>
      .ok { count_channel_bins := b,
            count_channel_mids := mi,
            count_channel_binning := bw,
            counts := c,
            count_rate := r,
            count_rate_error := rerr,
            photon_channel_bins := pb,
            srm := s,
            effective_exposure := e.effective_exposure,
            extras := Extras.empty }
    | _, _, _, _, _, _, _ => .error "KeyError"

/-- One user-level operation on a loaded spectrum. -/
inductive Op
  | rebin (gm : GroupMin)
  | undo
deriving DecidableEq

/-- Applying one operation to an entry.  A raised exception propagates out
of the mutating call before this entry is modified (in
`_rebin_loaded_spec` the grouping runs before any field is written, and in
the undo getter a consistent archive never raises), so the entry state is
unchanged on `Except.error`. -/
def applyOp (rS : Srm → Bins → Bins → Srm) (e : SpecEntry) (o : Op) : SpecEntry :=
  match o with
  | .rebin gm =>
    match rebin_loaded_spec rS gm e with
    | .ok e2 => e2
    | .error _ => e
  | .undo =>
    match undo_rebin_spec e with
    | .ok e2 => e2
    | .error _ => e

/-- Applying a sequence of rebin/undo operations to an entry. -/
def applyOps (rS : Srm → Bins → Bins → Srm) (ops : List Op) (e : SpecEntry) : SpecEntry :=
  ops.foldl (applyOp rS) e

/-! ## Collection merge (`LoadSpec.__add__`, data_loader.py lines 594-609)

Object aliasing is observable here, so the entries live in an explicit
store: an address is an index into the store, a collection maps spectrum
numbers (the `N` of `"spectrumN"`) to addresses in dictionary insertion
order, and a spectrum entry's payload is abstracted to one `Int` cell
(mutating an entry is writing its cell). -/

abbrev Store := List Int

abbrev Collection := List (Nat × Nat)

/-- Address of the entry registered under `"spectrum" + k`. -/
def lookupAddr (coll : Collection) (k : Nat) : Option Nat :=
  (coll.find? (fun p => p.1 == k)).map Prod.snd

/-- Read the entry registered under `"spectrum" + k` out of the store. -/
def readEntry (st : Store) (coll : Collection) (k : Nat) : Option Int :=
  (lookupAddr coll k).map (fun a => st.getD a 0)

/-- Mutate the store cell at an address. -/
def writeAddr (st : Store) (a : Nat) (v : Int) : Store := st.set a v

/-- Embedding of `LoadSpec.__add__` (data_loader.py lines 594-609).
`new_self = deepcopy(self)` allocates fresh cells holding copies of `self`'s
entries; the loop then registers `other`'s entries under continued numbering
by reference, without copying them.  `list(keys)[-1]` on an empty `self`
raises `IndexError`. -/
def addLoadSpec (st : Store) (self other : Collection) : Except String (Store × Collection) :=
  match self.getLast? with
  | Option.none => .error "IndexError"
  | Option.some lastP =>
    let base := st.length
    let st2 := st ++ self.map (fun p => st.getD p.2 0)
    let selfCopy := self.enum.map (fun q => (q.2.1, base + q.1))
    let otherRenum := other.enum.map (fun q => (lastP.1 + 1 + q.1, q.2.2))
    .ok (st2, selfCopy ++ otherRenum)

/-! ## Concrete fixtures used by witnesses and counterexamples -/

/-- A concrete response-reprojection hook for witnesses. -/
def rs0 : Srm → Bins → Bins → Srm := fun s _ _ => s

/-- A freshly loaded (never rebinned) spectrum entry fixture. -/
def e00 : SpecEntry :=
  { count_channel_bins := [(0,1),(1,2)],
    count_channel_mids := binMids [(0,1),(1,2)],
    count_channel_binning := [1,1],
    counts := [6,7],
    count_rate := countRate [6,7] [1,1] 2,
    count_rate_error := countRateError [6,7] [1,1] 2,
    photon_channel_bins := [(0,1),(1,2)],
    srm := [[1,0],[0,1]],
    effective_exposure := 2,
    extras := Extras.empty }

/-- The entry produced by rebinning `e00` with threshold 5 (each channel
count already meets the threshold, so the binning is unchanged and the
original state is archived). -/
def e1c : SpecEntry :=
  overwrite_working e00 [(0,1),(1,2)] [6,7] (snapshot_extras e00)
    (rs0 e00.srm e00.count_channel_bins [(0,1),(1,2)])

/-- Store fixture: payloads of collection A's two entries (10, 20) and
collection B's three entries (30, 40, 50). -/
def exStore : Store := [10,20,30,40,50]

/-- Collection A: `spectrum1`, `spectrum2` at addresses 0, 1. -/
def exA : Collection := [(1,0),(2,1)]

/-- Collection B: `spectrum1`..`spectrum3` at addresses 2, 3, 4. -/
def exB : Collection := [(1,2),(2,3),(3,4)]

/-- The store after merging: A's entries are copied to fresh cells 5, 6. -/
def exStore2 : Store := [10,20,30,40,50,10,20]

/-- The merged collection: A's entries under their keys at the fresh
copies, B's entries renumbered `spectrum3`..`spectrum5` at B's original
addresses. -/
def exMerged : Collection := [(1,5),(2,6),(3,2),(4,3),(5,4)]

/-- The seven-way alignment of the `original_<field>` keys: each key is
present exactly when `original_srm` (the key `_rebin_check` inspects) is
present. -/
def extras_aligned (x : Extras) : Prop :=
  x.original_count_channel_bins.isSome = x.original_srm.isSome ∧
  x.original_count_channel_mids.isSome = x.original_srm.isSome ∧
  x.original_count_channel_binning.isSome = x.original_srm.isSome ∧
  x.original_counts.isSome = x.original_srm.isSome ∧
  x.original_count_rate.isSome = x.original_srm.isSome ∧
  x.original_count_rate_error.isSome = x.original_srm.isSome ∧
  x.original_photon_channel_bins.isSome = x.original_srm.isSome

/-! ## Helper lemmas -/

/-- On a spectrum with an empty `extras` record (never rebinned),
`_rebin_loaded_spec` groups the working bins/counts, snapshots all working
fields, and overwrites. -/
theorem rebin_fresh_eq (rS : Srm → Bins → Bins → Srm) (gm : GroupMin) (e : SpecEntry)
    (hx : e.extras = Extras.empty) :
    rebin_loaded_spec rS gm e =
      match group_cts e.count_channel_bins e.counts gm with
      | .error s => .error s
      | .ok (nb, nc, _) =>
        .ok (overwrite_working e nb nc (snapshot_extras e) (rS e.srm e.count_channel_bins nb)) := by
  unfold rebin_loaded_spec rebin_inputs
  rw [hx]
  rfl

/-- Undoing the rebin of a previously unbinned spectrum restores it exactly. -/
theorem undo_overwrite_snapshot (e : SpecEntry) (nb : Bins) (nc : List Int) (s : Srm)
    (hx : e.extras = Extras.empty) :
    undo_rebin_spec (overwrite_working e nb nc (snapshot_extras e) s) = .ok e := by
  cases e
  cases hx
  rfl

/-- Inversion of a successful rebin of a previously unbinned spectrum. -/
theorem rebin_fresh_ok (rS : Srm → Bins → Bins → Srm) (gm : GroupMin) (e e1 : SpecEntry)
    (hx : e.extras = Extras.empty) (h : rebin_loaded_spec rS gm e = .ok e1) :
    ∃ nb nc ms, group_cts e.count_channel_bins e.counts gm = .ok (nb, nc, ms) ∧
      e1 = overwrite_working e nb nc (snapshot_extras e) (rS e.srm e.count_channel_bins nb) := by
  rw [rebin_fresh_eq rS gm e hx] at h
  cases hg : group_cts e.count_channel_bins e.counts gm with
  | error s => rw [hg] at h; exact absurd h (by simp)
  | ok t =>
    obtain ⟨nb, nc, ms⟩ := t
    rw [hg] at h
    simp only [Except.ok.injEq] at h
    exact ⟨nb, nc, ms, rfl, h.symm⟩

/-- On a spectrum that is already rebinned (all archive keys present),
`_rebin_loaded_spec` groups the archived original bins/counts, keeps the
existing archive, and overwrites. -/
theorem rebin_archived_eq (rS : Srm → Bins → Bins → Srm) (gm : GroupMin) (e : SpecEntry)
    (s0 : Srm) (cs0 : List Int) (bins0 : Bins)
    (h1 : e.extras.original_srm = Option.some s0)
    (h2 : e.extras.original_counts = Option.some cs0)
    (h3 : e.extras.original_count_channel_bins = Option.some bins0) :
    rebin_loaded_spec rS gm e =
      match group_cts bins0 cs0 gm with
      | .error s => .error s
      | .ok (nb, nc, _) => .ok (overwrite_working e nb nc e.extras (rS s0 bins0 nb)) := by
  unfold rebin_loaded_spec rebin_inputs
  rw [h1, h2, h3]

/-- Rebinning the result of rebinning a previously unbinned spectrum is the
same as rebinning that spectrum directly: the archived originals are used
as grouping inputs, no fresh snapshot is taken, and the untouched fields
agree. -/
theorem rebin_after_rebin (rS : Srm → Bins → Bins → Srm) (gm : GroupMin) (e : SpecEntry)
    (nb : Bins) (nc : List Int) (s : Srm) (hx : e.extras = Extras.empty) :
    rebin_loaded_spec rS gm (overwrite_working e nb nc (snapshot_extras e) s) =
      rebin_loaded_spec rS gm e := by
  rw [rebin_archived_eq rS gm (overwrite_working e nb nc (snapshot_extras e) s)
        e.srm e.counts e.count_channel_bins rfl rfl rfl,
      rebin_fresh_eq rS gm e hx]
  cases hg : group_cts e.count_channel_bins e.counts gm with
  | error s2 => rfl
  | ok t => obtain ⟨nb2, nc2, ms2⟩ := t; rfl

/-- Undo on a spectrum without the `"original_srm"` key is a no-op. -/
theorem undo_fresh (e : SpecEntry) (hs : e.extras.original_srm = Option.none) :
    undo_rebin_spec e = .ok e := by
  unfold undo_rebin_spec
  rw [hs]

/-- Undo on a spectrum with a complete archive restores every archived
field and empties the archive. -/
theorem undo_archived (e : SpecEntry) (b : Bins) (mi : List FVal) (bw : List Int)
    (c : List Int) (r : List FVal) (rerr : List FVal) (pb : Bins) (s : Srm)
    (hs : e.extras.original_srm = Option.some s)
    (hb : e.extras.original_count_channel_bins = Option.some b)
    (hmi : e.extras.original_count_channel_mids = Option.some mi)
    (hbw : e.extras.original_count_channel_binning = Option.some bw)
    (hc : e.extras.original_counts = Option.some c)
    (hr : e.extras.original_count_rate = Option.some r)
    (hre : e.extras.original_count_rate_error = Option.some rerr)
    (hpb : e.extras.original_photon_channel_bins = Option.some pb) :
    undo_rebin_spec e = .ok
      { count_channel_bins := b,
        count_channel_mids := mi,
        count_channel_binning := bw,
        counts := c,
        count_rate := r,
        count_rate_error := rerr,
        photon_channel_bins := pb,
        srm := s,
        effective_exposure := e.effective_exposure,
        extras := Extras.empty } := by
  unfold undo_rebin_spec
  rw [hs, hb, hmi, hbw, hc, hr, hre, hpb]


/-- A complete archive: every `original_<field>` key is present. -/
def arch_full (x : Extras) : Prop :=
  (∃ v, x.original_count_channel_bins = Option.some v) ∧
  (∃ v, x.original_count_channel_mids = Option.some v) ∧
  (∃ v, x.original_count_channel_binning = Option.some v) ∧
  (∃ v, x.original_counts = Option.some v) ∧
  (∃ v, x.original_count_rate = Option.some v) ∧
  (∃ v, x.original_count_rate_error = Option.some v) ∧
  (∃ v, x.original_photon_channel_bins = Option.some v) ∧
  (∃ v, x.original_srm = Option.some v)

/-- The snapshot/restore invariant: the archive is either completely empty
or complete. -/
def arch_inv (x : Extras) : Prop := x = Extras.empty ∨ arch_full x

theorem arch_full_snapshot (e : SpecEntry) : arch_full (snapshot_extras e) :=
  ⟨⟨_, rfl⟩, ⟨_, rfl⟩, ⟨_, rfl⟩, ⟨_, rfl⟩, ⟨_, rfl⟩, ⟨_, rfl⟩, ⟨_, rfl⟩, ⟨_, rfl⟩⟩

/-- Inversion of a successful rebin: the result is an overwrite of the
working fields whose stored archive is either the entry's existing archive
(already-rebinned path) or a full snapshot of the entry (fresh path). -/
theorem rebin_ok_inv (rS : Srm → Bins → Bins → Srm) (gm : GroupMin) (e e2 : SpecEntry)
    (h : rebin_loaded_spec rS gm e = .ok e2) :
    ∃ nb nc ex s, (ex = e.extras ∨ ex = snapshot_extras e) ∧
      e2 = overwrite_working e nb nc ex s := by
  unfold rebin_loaded_spec at h
  split at h
  · exact absurd h (by simp)
  · rename_i t s0 bins0 cs0 ex hinputs
    split at h
    · exact absurd h (by simp)
    · rename_i u nb nc ms hg
      have hex : ex = e.extras ∨ ex = snapshot_extras e := by
        unfold rebin_inputs at hinputs
        split at hinputs
        · split at hinputs
          · simp only [Except.ok.injEq, Prod.mk.injEq] at hinputs
            exact Or.inl hinputs.2.2.2.symm
          · exact absurd hinputs (by simp)
        · simp only [Except.ok.injEq, Prod.mk.injEq] at hinputs
          exact Or.inr hinputs.2.2.2.symm
      simp only [Except.ok.injEq] at h
      exact ⟨nb, nc, ex, _, hex, h.symm⟩

/-- Inversion of undo: either a no-op, or the result has an empty archive
and the same exposure. -/
theorem undo_ok_inv (e e2 : SpecEntry) (h : undo_rebin_spec e = .ok e2) :
    e2 = e ∨ (e2.extras = Extras.empty ∧ e2.effective_exposure = e.effective_exposure) := by
  unfold undo_rebin_spec at h
  split at h
  · simp only [Except.ok.injEq] at h
    exact Or.inl h.symm
  · split at h
    · simp only [Except.ok.injEq] at h
      rw [← h]
      exact Or.inr ⟨rfl, rfl⟩
    · exact absurd h (by simp)

/-- One rebin or undo operation preserves the snapshot/restore invariant. -/
theorem arch_inv_applyOp (rS : Srm → Bins → Bins → Srm) (e : SpecEntry) (o : Op)
    (h : arch_inv e.extras) : arch_inv (applyOp rS e o).extras := by
  cases o with
  | rebin gm =>
    have hshow : applyOp rS e (Op.rebin gm) =
        match rebin_loaded_spec rS gm e with
        | .ok e2 => e2
        | .error _ => e := rfl
    rw [hshow]
    cases hr : rebin_loaded_spec rS gm e with
    | error s => exact h
    | ok e2 =>
      show arch_inv e2.extras
      obtain ⟨nb, nc, ex, s, hex, he2⟩ := rebin_ok_inv rS gm e e2 hr
      rw [he2]
      show arch_inv ex
      cases hex with
      | inl hl => rw [hl]; exact h
      | inr hr2 => rw [hr2]; exact Or.inr (arch_full_snapshot e)
  | undo =>
    have hshow : applyOp rS e Op.undo =
        match undo_rebin_spec e with
        | .ok e2 => e2
        | .error _ => e := rfl
    rw [hshow]
    cases hu : undo_rebin_spec e with
    | error s => exact h
    | ok e2 =>
      show arch_inv e2.extras
      cases undo_ok_inv e e2 hu with
      | inl heq => rw [heq]; exact h
      | inr hx => exact Or.inl hx.1

/-- A sequence of rebin/undo operations preserves the snapshot/restore
invariant. -/
theorem arch_inv_applyOps (rS : Srm → Bins → Bins → Srm) (ops : List Op) (e : SpecEntry)
    (h : arch_inv e.extras) : arch_inv (applyOps rS ops e).extras := by
  induction ops generalizing e with
  | nil => exact h
  | cons o os ih => exact ih (applyOp rS e o) (arch_inv_applyOp rS e o h)

/-- Neither a rebin nor an undo ever touches `effective_exposure`. -/
theorem exposure_applyOp (rS : Srm → Bins → Bins → Srm) (e : SpecEntry) (o : Op) :
    (applyOp rS e o).effective_exposure = e.effective_exposure := by
  cases o with
  | rebin gm =>
    have hshow : applyOp rS e (Op.rebin gm) =
        match rebin_loaded_spec rS gm e with
        | .ok e2 => e2
        | .error _ => e := rfl
    rw [hshow]
    cases hr : rebin_loaded_spec rS gm e with
    | error s => rfl
    | ok e2 =>
      show e2.effective_exposure = e.effective_exposure
      obtain ⟨nb, nc, ex, s, hex, he2⟩ := rebin_ok_inv rS gm e e2 hr
      rw [he2]
      rfl
  | undo =>
    have hshow : applyOp rS e Op.undo =
        match undo_rebin_spec e with
        | .ok e2 => e2
        | .error _ => e := rfl
    rw [hshow]
    cases hu : undo_rebin_spec e with
    | error s => rfl
    | ok e2 =>
      show e2.effective_exposure = e.effective_exposure
      cases undo_ok_inv e e2 hu with
      | inl heq => rw [heq]
      | inr hx => exact hx.2

/-- No sequence of rebin/undo operations ever touches `effective_exposure`. -/
theorem exposure_applyOps (rS : Srm → Bins → Bins → Srm) (ops : List Op) (e : SpecEntry) :
    (applyOps rS ops e).effective_exposure = e.effective_exposure := by
  induction ops generalizing e with
  | nil => rfl
  | cons o os ih => exact (ih (applyOp rS e o)).trans (exposure_applyOp rS e o)

/-- A successful rebin recomputes the count rate and its error from the new
counts and widths divided by the entry's current `effective_exposure`. -/
theorem rebin_ok_rate (rS : Srm → Bins → Bins → Srm) (gm : GroupMin) (e e2 : SpecEntry)
    (h : rebin_loaded_spec rS gm e = .ok e2) :
    e2.count_rate = countRate e2.counts e2.count_channel_binning e.effective_exposure ∧
    e2.count_rate_error = countRateError e2.counts e2.count_channel_binning e.effective_exposure := by
  obtain ⟨nb, nc, ex, s, hex, he2⟩ := rebin_ok_inv rS gm e e2 h
  rw [he2]
  exact ⟨rfl, rfl⟩

/-! ## Claim theorems -/

/-- Claim C1: grouping the literal fixture counts 1..10 on unit channel
intervals over 0..10 with threshold 5 yields exactly the bins
[0,3),[3,5),[5,6),[6,7),[7,8),[8,9),[9,10) with summed counts
6,9,6,7,8,9,10, no leftover (no diagnostic) and no appended zero-count
remainder bin. -/
theorem group_cts_fixture_exact :
    group_cts [(0,1),(1,2),(2,3),(3,4),(4,5),(5,6),(6,7),(7,8),(8,9),(9,10)]
      [1,2,3,4,5,6,7,8,9,10] (GroupMin.int 5)
    = .ok ([(0,3),(3,5),(5,6),(6,7),(7,8),(8,9),(9,10)], [6,9,6,7,8,9,10], []) := by
  decide

/-- Claim C4 (evaluation of the code at the failing input): when the counts
never accumulate to the threshold so that no bin ever closes, `group_cts`
raises an `IndexError` (from `np.array(binned_channel)[-1,-1]` on the empty
list of closed bins) instead of returning a best-effort result with a
warning. -/
theorem group_cts_no_closed_bin_raises :
    group_cts [(0,1),(1,2)] [1,1] (GroupMin.int 5) = .error "IndexError" := by
  decide

/-- Claim C5 (counterexample): `group_pha_finder` started at candidate 1 on
counts [1,1,1,1] does not return threshold 4 with all four channels in one
bin. -/
theorem group_pha_finder_fixture_not_four :
    group_pha_finder [(0,1),(1,2),(2,3),(3,4)] [1,1,1,1] (GroupMin.int 1) 10
      ≠ Option.some (PhaResult.found [(0,4)] 4) := by
  decide

/-- Claim C5 (amended): `group_pha_finder` started at candidate 1 on counts
[1,1,1,1] returns threshold 1 — already at the first candidate every
channel's own count meets the threshold, each channel closes as its own
bin, and zero counts are left over. -/
theorem group_pha_finder_fixture_returns_one :
    group_pha_finder [(0,1),(1,2),(2,3),(3,4)] [1,1,1,1] (GroupMin.int 1) 10
      = Option.some (PhaResult.found [(0,1),(1,2),(2,3),(3,4)] 1) := by
  decide

/-- Claim C9: `group_cts` with `group_min=None` returns the input bins and
counts exactly unchanged with no diagnostic; any other non-positive-integer
`group_min` (a non-`int` value, or an `int` that is not positive) returns
the unmodified input with a non-fatal diagnostic message; no case raises. -/
theorem group_cts_invalid_group_min_identity (channel_bins : Bins) (counts : List Int) :
    group_cts channel_bins counts GroupMin.none = .ok (channel_bins, counts, []) ∧
    group_cts channel_bins counts GroupMin.other = .ok (channel_bins, counts, [groupMinMsg]) ∧
    ∀ n : Int, n ≤ 0 →
      group_cts channel_bins counts (GroupMin.int n) = .ok (channel_bins, counts, [groupMinMsg]) := by
  refine ⟨rfl, rfl, fun n hn => ?_⟩
  simp only [group_cts]
  rw [if_pos hn]

/-- Witness for claim C9 at a concrete input and the concrete non-positive
threshold 0. -/
theorem group_cts_invalid_group_min_identity_witness :
    group_cts [(0,1)] [5] (GroupMin.int 0) = .ok ([(0,1)], [5], [groupMinMsg]) :=
  (group_cts_invalid_group_min_identity [(0,1)] [5]).2.2 0 (by decide)

/-- Claim C8: constructing a `SpectrumData` whose response-matrix shape
differs from `(photons_energy_edges.size - 1, counts_energy_edges.size - 1)`
always fails with a validation error and never returns a (partially)
constructed record to the caller. -/
theorem spectrum_data_bad_srm_shape_errors (counts counts_error cee pee : List Int)
    (srm : PyMatrix) (ex : Exposure) (sd : String)
    (h : ((srm.rows : Int), (srm.cols : Int))
        ≠ ((pee.length : Int) - 1, (cee.length : Int) - 1)) :
    exceptOk (mkSpectrumData counts counts_error cee pee srm ex sd) = false := by
  unfold mkSpectrumData
  split
  · rfl
  · split
    · rfl
    · rfl

/-- Witness for claim C8: a 1 x 1 response matrix where a 2 x 1 matrix is
required (two photon bins, one count bin). -/
theorem spectrum_data_bad_srm_shape_errors_witness :
    exceptOk (mkSpectrumData [1] [1] [0,1] [0,1,2]
      { rows := 1, cols := 1, data := [[5]] } (Exposure.scalar 1) "Gaussian") = false :=
  spectrum_data_bad_srm_shape_errors [1] [1] [0,1] [0,1,2]
    { rows := 1, cols := 1, data := [[5]] } (Exposure.scalar 1) "Gaussian" (by decide)

/-- Claim C2: on a freshly loaded (never rebinned, empty `extras`) spectrum,
rebinning with a positive integer threshold and then undoing restores every
working field — bins, counts, count rate, count-rate error, response
matrix and the rest — bit-identically and removes all `original_<field>`
keys from `extras`: the undo returns exactly the pre-rebin entry. -/
theorem rebin_undo_restores_original (rS : Srm → Bins → Bins → Srm) (m : Int)
    (e e1 : SpecEntry) (hx : e.extras = Extras.empty) (hm : 0 < m)
    (h : rebin_loaded_spec rS (GroupMin.int m) e = .ok e1) :
    undo_rebin_spec e1 = .ok e := by
  obtain ⟨nb, nc, ms, hg, he1⟩ := rebin_fresh_ok rS (GroupMin.int m) e e1 hx h
  rw [he1]
  exact undo_overwrite_snapshot e nb nc _ hx

/-- Witness for claim C2 at the concrete entry `e00` and threshold 5. -/
theorem rebin_undo_restores_original_witness : undo_rebin_spec e1c = .ok e00 :=
  rebin_undo_restores_original rs0 5 e00 e1c rfl (by decide) (by decide)

/-- Claim C3: rebinning an already-rebinned spectrum with a second positive
threshold gives the same result as undoing and rebinning from the restored
original — regrouping always restarts from the archived original channel
bins and counts and takes no fresh snapshot. -/
theorem rebin_twice_restarts_from_original (rS : Srm → Bins → Bins → Srm)
    (m1 m2 : Int) (e e1 : SpecEntry) (hx : e.extras = Extras.empty)
    (hm1 : 0 < m1) (hm2 : 0 < m2)
    (h : rebin_loaded_spec rS (GroupMin.int m1) e = .ok e1) :
    rebin_loaded_spec rS (GroupMin.int m2) e1 =
      Except.bind (undo_rebin_spec e1) (rebin_loaded_spec rS (GroupMin.int m2)) := by
  obtain ⟨nb, nc, ms, hg, he1⟩ := rebin_fresh_ok rS (GroupMin.int m1) e e1 hx h
  subst he1
  rw [undo_overwrite_snapshot e nb nc _ hx]
  rw [rebin_after_rebin rS (GroupMin.int m2) e nb nc _ hx]
  rfl

/-- Witness for claim C3 at the concrete entry `e00` with thresholds 5
then 3. -/
theorem rebin_twice_restarts_from_original_witness :
    rebin_loaded_spec rs0 (GroupMin.int 3) e1c =
      Except.bind (undo_rebin_spec e1c) (rebin_loaded_spec rs0 (GroupMin.int 3)) :=
  rebin_twice_restarts_from_original rs0 5 3 e00 e1c rfl (by decide) (by decide) (by decide)

/-- Claim C7: in every state reachable from a freshly loaded spectrum by
rebin and undo operations, the `original_<field>` archive keys are present
or absent together — in particular `original_counts` (the key the spec
defines the rebinned state by) is present exactly when `original_srm` (the
key `_rebin_check` inspects) is present, so the rebinned state is
well-defined and no partially archived state is reachable. -/
theorem extras_archive_all_or_none (rS : Srm → Bins → Bins → Srm) (ops : List Op)
    (e : SpecEntry) (hx : e.extras = Extras.empty) :
    extras_aligned (applyOps rS ops e).extras := by
  have hinv := arch_inv_applyOps rS ops e (Or.inl hx)
  cases hinv with
  | inl hE => rw [hE]; exact ⟨rfl, rfl, rfl, rfl, rfl, rfl, rfl⟩
  | inr hF =>
    obtain ⟨⟨b, hb⟩, ⟨mi, hmi⟩, ⟨bw, hbw⟩, ⟨c, hc⟩, ⟨r, hr⟩, ⟨rerr, hre⟩, ⟨pb, hpb⟩, ⟨s, hs⟩⟩ := hF
    unfold extras_aligned
    rw [hb, hmi, hbw, hc, hr, hre, hpb, hs]
    exact ⟨rfl, rfl, rfl, rfl, rfl, rfl, rfl⟩

/-- Witness for claim C7 on the concrete entry `e00` after a rebin followed
by an undo. -/
theorem extras_archive_all_or_none_witness :
    extras_aligned (applyOps rs0 [Op.rebin (GroupMin.int 5), Op.undo] e00).extras :=
  extras_archive_all_or_none rs0 [Op.rebin (GroupMin.int 5), Op.undo] e00 rfl

/-- Claim C10: `effective_exposure` is never snapshotted, overwritten or
restored: after any sequence of rebin and undo operations the working
exposure is identical to its load-time value, and any successful rebin from
such a state computes the count rate and count-rate error by dividing by
that same load-time exposure. -/
theorem exposure_never_touched (rS : Srm → Bins → Bins → Srm) (ops : List Op)
    (e : SpecEntry) :
    (applyOps rS ops e).effective_exposure = e.effective_exposure ∧
    ∀ gm e2, rebin_loaded_spec rS gm (applyOps rS ops e) = .ok e2 →
      e2.count_rate = countRate e2.counts e2.count_channel_binning e.effective_exposure ∧
      e2.count_rate_error = countRateError e2.counts e2.count_channel_binning e.effective_exposure := by
  refine ⟨exposure_applyOps rS ops e, fun gm e2 h => ?_⟩
  have hr := rebin_ok_rate rS gm (applyOps rS ops e) e2 h
  rw [exposure_applyOps rS ops e] at hr
  exact hr

/-- Witness for claim C10: rebinning `e00` (empty operation history) with
threshold 5 produces `e1c`, whose count rate divides by `e00`'s load-time
exposure. -/
theorem exposure_never_touched_witness :
    e1c.count_rate = countRate e1c.counts e1c.count_channel_binning e00.effective_exposure :=
  ((exposure_never_touched rs0 [] e00).2 (GroupMin.int 5) e1c (by decide)).1

/-- Claim C6 (counterexample): merging collection A (2 spectra) with
collection B (3 spectra) registers B's entries in the result by reference:
the merged `spectrum3` and B's `spectrum1` are the same store cell, so
mutating the merged result's `spectrum3` changes B's original `spectrum1`
from 30 to 99 — the claimed absence of aliasing is false
(`deepcopy` is applied to `self` only, not to `other`'s entries). -/
theorem add_aliases_other_entries :
    addLoadSpec exStore exA exB = .ok (exStore2, exMerged) ∧
    lookupAddr exMerged 3 = Option.some 2 ∧
    lookupAddr exB 1 = Option.some 2 ∧
    readEntry exStore2 exB 1 = Option.some 30 ∧
    readEntry (writeAddr exStore2 2 99) exMerged 3 = Option.some 99 ∧
    readEntry (writeAddr exStore2 2 99) exB 1 = Option.some 99 := by
  decide

/-- Claim C6 (amended): merging collection A (2 spectra) with collection B
(3 spectra) yields a new collection with exactly the keys
`spectrum1`..`spectrum5`; A's entries appear unchanged under their original
keys as fresh deep copies (unaliased: mutating the merged `spectrum1` or
`spectrum2` does not affect A), and B's entries become
`spectrum3`..`spectrum5` in B's original relative order with unchanged
payloads; neither A nor B's key mapping is mutated and the store cells of
A's and B's entries are unchanged by the merge — but B's entries in the
result are the same objects as B's originals (aliased), not copies. -/
theorem add_merge_amended :
    addLoadSpec exStore exA exB = .ok (exStore2, exMerged) ∧
    exMerged.map Prod.fst = [1,2,3,4,5] ∧
    readEntry exStore2 exMerged 1 = Option.some 10 ∧
    readEntry exStore2 exMerged 2 = Option.some 20 ∧
    readEntry exStore2 exMerged 3 = Option.some 30 ∧
    readEntry exStore2 exMerged 4 = Option.some 40 ∧
    readEntry exStore2 exMerged 5 = Option.some 50 ∧
    readEntry exStore2 exA 1 = Option.some 10 ∧
    readEntry exStore2 exA 2 = Option.some 20 ∧
    readEntry exStore2 exB 1 = Option.some 30 ∧
    readEntry exStore2 exB 2 = Option.some 40 ∧
    readEntry exStore2 exB 3 = Option.some 50 ∧
    lookupAddr exMerged 1 ≠ lookupAddr exA 1 ∧
    lookupAddr exMerged 2 ≠ lookupAddr exA 2 ∧
    readEntry (writeAddr exStore2 5 99) exA 1 = Option.some 10 ∧
    readEntry (writeAddr exStore2 6 99) exA 2 = Option.some 20 ∧
    lookupAddr exMerged 3 = lookupAddr exB 1 ∧
    lookupAddr exMerged 4 = lookupAddr exB 2 ∧
    lookupAddr exMerged 5 = lookupAddr exB 3 := by
  decide
